import Mathlib

/-!
Verification of the runtime control plane of the Ellie voice-assistant backend:
circuit breaker manager, sliding-window rate limiter, service registry and
discovery, and the WebSocket connection manager.  Each subsystem is embedded
shallowly: the Python methods become pure Lean functions over explicit state,
machine time is an integer, and fallible paths are explicit.
-/

namespace Ellie

/-! ## Circuit breaker (app/services/circuit_breaker.py)

The manager delegates the raw state machine to the third-party
`circuitbreaker.CircuitBreaker` class, which is not part of this repository;
that state machine is modelled from the spec (section 4.2).  Everything else —
the stats record, the listener callbacks, and `call_with_circuit_breaker` —
is embedded directly from `app/services/circuit_breaker.py`.
-/

/-- States of a circuit breaker, from `CircuitBreakerState` in
`circuit_breaker.py` (closed / open / half_open). -/
inductive BState where
  | closed
  | opened
  | halfOpen
deriving DecidableEq, Repr

/-- Modelled from the spec: the internal record of the third-party
`circuitbreaker.CircuitBreaker` object (not in this repository).  It keeps the
state, a failure counter, the time of the last failure, and its configured
threshold and recovery timeout (spec section 4.2). -/
structure Breaker where
  state : BState
  failureCount : Nat
  lastFailure : Option Nat
  failureThreshold : Nat
  recoveryTimeout : Nat
deriving DecidableEq, Repr

/-- Modelled from the spec: in state `open`, once `recovery_timeout` has
elapsed since the last failure the breaker allows trial calls (half-open). -/
def Breaker.recoveryElapsed (b : Breaker) (t : Nat) : Bool :=
  match b.lastFailure with
  | some lf => decide (lf + b.recoveryTimeout ≤ t)
  | none => false

/-- Statistics record kept by the manager for one breaker, from
`CircuitBreakerStats` in `circuit_breaker.py`. -/
structure CircuitBreakerStats where
  state : BState
  failure_count : Nat
  success_count : Nat
  total_calls : Nat
  last_failure_time : Option Nat
  last_success_time : Option Nat
  failure_threshold : Nat
  recovery_timeout : Nat
deriving DecidableEq, Repr

/-- One named entry of the manager: the third-party breaker object paired with
its `CircuitBreakerStats` record (the manager keeps the two dictionaries
`circuit_breakers` and `stats` keyed by the same name). -/
structure CBEntry where
  breaker : Breaker
  stats : CircuitBreakerStats
deriving DecidableEq, Repr

/-- Fresh entry made by `get_or_create_circuit_breaker`: a closed breaker and
a zeroed stats record carrying the configured threshold and timeout. -/
def mkCBEntry (ft rt : Nat) : CBEntry :=
  { breaker := { state := .closed, failureCount := 0, lastFailure := none,
                 failureThreshold := ft, recoveryTimeout := rt }
    stats := { state := .closed, failure_count := 0, success_count := 0,
               total_calls := 0, last_failure_time := none,
               last_success_time := none, failure_threshold := ft,
               recovery_timeout := rt } }

/-- Outcome of the wrapped operation: it returns normally or raises with a
message. -/
inductive Outcome where
  | success
  | failure (msg : String)
deriving DecidableEq, Repr

/-- Result of `call_with_circuit_breaker`: normal return,
`CircuitBreakerOpenError(name)` (from `app/core/exceptions.py`), or
`ExternalServiceError(name, message)` (ditto). -/
inductive CallResult where
  | ok
  | circuitBreakerOpenError (service : String)
  | externalServiceError (service : String) (msg : String)
deriving DecidableEq, Repr

/-- One call through `CircuitBreakerManager.call_with_circuit_breaker` for a
given name.  `entry` is the manager's entry for that name (`none` when the
breaker does not exist yet and is created lazily), `outcome` is what the
wrapped operation would do if invoked, and `t` the current time.  Returns the
updated entry, the call result, and whether the wrapped operation was actually
invoked.  The underlying state machine (open to half-open after the recovery
timeout, half-open success closes, failure opens at the threshold) is modelled
from the spec; the stats bookkeeping and the listener callbacks
(`_on_circuit_breaker_open` / `_close` / `_half_open`) follow the source. -/
def callWithCircuitBreaker (entry : Option CBEntry) (name : String)
    (defFT defRT : Nat) (outcome : Outcome) (t : Nat) :
    CBEntry × CallResult × Bool :=
  let e := entry.getD (mkCBEntry defFT defRT)
  -- the breaker object's view of its state: open turns half-open once the
  -- recovery timeout has elapsed (modelled from the spec); the half-open
  -- listener then sets the stats state to half_open
  let toHalf : Bool := e.breaker.state = .opened && e.breaker.recoveryElapsed t
  let b1 := if toHalf then { e.breaker with state := .halfOpen } else e.breaker
  let st0 := if toHalf then { e.stats with state := .halfOpen } else e.stats
  -- `self.stats[name].total_calls += 1`
  let st1 := { st0 with total_calls := st0.total_calls + 1 }
  -- `if circuit_breaker.current_state == "open": raise CircuitBreakerOpenError(name)`
  if b1.state = .opened then
    ({ breaker := b1, stats := st1 }, .circuitBreakerOpenError name, false)
  else
    match outcome with
    | .success =>
      -- modelled from the spec: a success resets the failure count and a
      -- half-open success transitions the breaker to closed (firing the
      -- close listener, which records state and last success time)
      let b2 := { b1 with state := .closed, failureCount := 0 }
      let st2 := if b1.state = .halfOpen then
          { st1 with state := .closed, last_success_time := some t }
        else st1
      -- `self.stats[name].success_count += 1; ...last_success_time = time.time()`
      let st3 := { st2 with success_count := st2.success_count + 1, last_success_time := some t }
      ({ breaker := b2, stats := st3 }, .ok, true)
    | .failure msg =>
      -- modelled from the spec: a failure increments the breaker's counter;
      -- a half-open failure reopens, and a closed breaker opens when the
      -- counter reaches the threshold (firing the open listener)
      let fc := b1.failureCount + 1
      let opens : Bool := b1.state = .halfOpen || decide (b1.failureThreshold ≤ fc)
      let b2 := if opens then
          { b1 with state := .opened, failureCount := fc, lastFailure := some t }
        else { b1 with failureCount := fc, lastFailure := some t }
      let st2 := if opens then
          { st1 with state := .opened, last_failure_time := some t }
        else st1
      -- `self.stats[name].failure_count += 1; ...last_failure_time = time.time()`
      -- then `raise ExternalServiceError(name, str(e))`
      let st3 := { st2 with failure_count := st2.failure_count + 1, last_failure_time := some t }
      ({ breaker := b2, stats := st3 }, .externalServiceError name msg, true)

/-! ## Rate limiter (app/services/rate_limiter.py)

`RateLimiter._sliding_window_check` is embedded after the parse of the limit
string (format "N/Mseconds"), so `maxRequests` and `winSeconds` arrive as
integers.  The key-value store (spec section 6, backed by
`app/services/cache_service.py`) is a finite map from keys to integer
counters; its time-to-live bookkeeping is not modelled since no claim spans a
counter's expiry.  Each store operation may raise; a raised operation makes
the surrounding `except` clause return `(True, 0)` — admit with no retry
delay.  Python's floor division and modulo on integers are `Int.fdiv` and
`Int.fmod`. -/

/-- Key-value store holding the per-window counters (`rate_limit:{client}:{idx}`
keys are identified with the pair of client identity and window index). -/
def RLStore := String × Int → Option Int

/-- Store after `cache_service.set`/`increment` wrote value `v` at key `k`. -/
def RLStore.update (s : RLStore) (k : String × Int) (v : Int) : RLStore :=
  fun k2 => if k2 = k then some v else s k2

/-- Which of the three store operations of `_sliding_window_check` raise when
reached (the spec's collaborator contract allows any of them to fail). -/
structure StoreFail where
  failGet : Bool
  failIncrement : Bool
  failSet : Bool
deriving DecidableEq, Repr

/-- Failure configuration in which every store operation succeeds. -/
def noStoreFail : StoreFail :=
  { failGet := false, failIncrement := false, failSet := false }

/-- Store key consulted by `_sliding_window_check`:
`window_start = current_time - window_seconds` and the key is
`rate_limit:{client_id}:{window_start // window_seconds}`. -/
def windowKey (clientId : String) (winSeconds now : Int) : String × Int :=
  (clientId, (now - winSeconds).fdiv winSeconds)

/-- One run of `RateLimiter._sliding_window_check` for a client at time `now`:
returns `(allowed, retry_after, store')`.  A zero window length raises
`ZeroDivisionError`, caught by the `except` clause which returns `(True, 0)`;
a raising store operation does the same.  Otherwise: read the counter
(defaulting to 0), deny with `retry_after = window_seconds - now % window_seconds`
when it has reached `max_requests`, else increment it and — when the read
counter was 0 — set the key to 1 with a time-to-live. -/
def slidingWindowCheck (fail : StoreFail) (store : RLStore) (clientId : String)
    (maxRequests winSeconds now : Int) : Bool × Int × RLStore :=
  if winSeconds = 0 then (true, 0, store)
  else
    let key := windowKey clientId winSeconds now
    if fail.failGet then (true, 0, store)
    else
      let currentCount := (store key).getD 0
      if maxRequests ≤ currentCount then
        (false, winSeconds - Int.fmod now winSeconds, store)
      else if fail.failIncrement then (true, 0, store)
      else
        let store1 := store.update key (currentCount + 1)
        if currentCount = 0 then
          if fail.failSet then (true, 0, store1)
          else (true, 0, store1.update key 1)
        else (true, 0, store1)

/-! ## Service discovery (app/services/service_discovery.py)

`ServiceDiscovery.services` is a Python dict from service id to `ServiceInfo`;
it is embedded as an insertion-ordered association list.  Float latencies
become rationals.  The aggregate `stats` dictionary is not modelled — no claim
touches it. -/

/-- Health states of a service instance (`health_status` strings in
`service_discovery.py`: unknown, healthy, degraded, unhealthy). -/
inductive HealthStatus where
  | unknown
  | healthy
  | degraded
  | unhealthy
deriving DecidableEq, Repr

/-- One registered instance, from the `ServiceInfo` pydantic model. -/
structure ServiceInfo where
  id : String
  name : String
  version : String
  host : String
  port : Nat
  protocol : String
  health_endpoint : String
  tags : List String
  dependencies : List String
  metadata : List (String × String)
  registered_at : Nat
  last_health_check : Option Nat
  health_status : HealthStatus
  consecutive_failures : Nat
  response_time_ms : Option ℚ
deriving DecidableEq, Repr

/-- Python-dict read: value of the first entry with the given key. -/
def dictGet {α : Type} : List (String × α) → String → Option α
  | [], _ => none
  | (k, v) :: rest, i => if k = i then some v else dictGet rest i

/-- Python-dict write: replace in place when the key exists (keeping its
position, as dict assignment does), else append. -/
def dictSet {α : Type} (k : String) (v : α) : List (String × α) → List (String × α)
  | [] => [(k, v)]
  | (k2, v2) :: rest =>
      if k2 = k then (k, v) :: rest else (k2, v2) :: dictSet k v rest

/-- Python-dict delete of a key. -/
def dictDel {α : Type} (k : String) : List (String × α) → List (String × α)
  | [] => []
  | (k2, v2) :: rest =>
      if k2 = k then rest else (k2, v2) :: dictDel k rest

/-- The registry: `self.services`, a dict from id to `ServiceInfo`. -/
abbrev Registry := List (String × ServiceInfo)

/-- Values of the registry dict in insertion order (`self.services.values()`). -/
def Registry.values (r : Registry) : List ServiceInfo := r.map Prod.snd

/-- Keys of the registry dict. -/
def Registry.keys (r : Registry) : List String := r.map Prod.fst

/-- Registration payload of `register_service`: mandatory name, version, host
and port, everything else optional with the defaults the source supplies via
`service_data.get`. -/
structure RegisterData where
  id : Option String
  name : String
  version : String
  host : String
  port : Nat
  protocol : Option String
  health_endpoint : Option String
  tags : Option (List String)
  dependencies : Option (List String)
  metadata : Option (List (String × String))
deriving DecidableEq, Repr

/-- The `ServiceInfo` object built by `register_service` for id `sid` at time
`now`: pydantic defaults give status `unknown`, zero failures, and no recorded
latency or probe time. -/
def mkServiceInfo (d : RegisterData) (sid : String) (now : Nat) : ServiceInfo :=
  { id := sid, name := d.name, version := d.version, host := d.host,
    port := d.port, protocol := d.protocol.getD "http",
    health_endpoint := d.health_endpoint.getD "/health",
    tags := d.tags.getD [], dependencies := d.dependencies.getD [],
    metadata := d.metadata.getD [], registered_at := now,
    last_health_check := none, health_status := .unknown,
    consecutive_failures := 0, response_time_ms := none }

/-- `ServiceDiscovery.register_service`: the id is the supplied one or a fresh
uuid, and `self.services[service_id] = service_info` stores (or replaces) the
entry.  Returns the new registry and the id. -/
def registerService (r : Registry) (d : RegisterData) (freshId : String)
    (now : Nat) : Registry × String :=
  let sid := d.id.getD freshId
  (dictSet sid (mkServiceInfo d sid now) r, sid)

/-- Sort key used by `discover_service`'s `min(...)` call:
`s.response_time_ms or float('inf')`.  A missing latency — and, because `0.0`
is falsy in Python, a recorded latency of exactly zero — counts as infinite. -/
def latencyKey (s : ServiceInfo) : WithTop ℚ :=
  match s.response_time_ms with
  | some x => if x = 0 then ⊤ else (x : WithTop ℚ)
  | none => ⊤

/-- Python's `min(xs, key=latencyKey)`: scan left to right, keeping the
earliest element whose key is strictly smaller than the best so far. -/
def minByLatency (hd : ServiceInfo) (tl : List ServiceInfo) : ServiceInfo :=
  tl.foldl (fun best s => if latencyKey s < latencyKey best then s else best) hd

/-- Instances matching the requested name and tag filter in
`discover_service`: all instances with that name, and — when the tag list is
non-empty (`if tags:` is false for both `None` and `[]`) — only those whose
tag set contains every requested tag. -/
def matchingServices (r : Registry) (name : String) (tags : List String) :
    List ServiceInfo :=
  let services := r.values.filter (fun s => s.name = name)
  if tags = [] then services
  else services.filter (fun s => tags.all (fun t => s.tags.contains t))

/-- The healthy ones among the matching instances. -/
def healthyMatching (r : Registry) (name : String) (tags : List String) :
    List ServiceInfo :=
  (matchingServices r name tags).filter (fun s => s.health_status = .healthy)

/-- `ServiceDiscovery.discover_service`: pick the healthy matching instance
with minimal latency key; with no healthy instance fall back to the first
matching one (`services[0]`); with no match at all return `None`. -/
def discoverService (r : Registry) (name : String) (tags : List String) :
    Option ServiceInfo :=
  match healthyMatching r name tags with
  | hd :: tl => some (minByLatency hd tl)
  | [] =>
    match matchingServices r name tags with
    | s :: _ => some s
    | [] => none

/-- Outcome of one health probe of `_check_service_health`: an HTTP response
with a status code and an observed latency, or a transport error / timeout
(the `except` branch). -/
inductive ProbeOutcome where
  | response (statusCode : Nat) (latency : ℚ)
  | transportError
deriving DecidableEq, Repr

/-- `ServiceDiscovery._check_service_health` applied to one instance: with an
empty probe path the method returns before doing anything; an HTTP 200 marks
it healthy, zeroes the failure streak and records the latency; any other
status marks it degraded and increments the streak; a transport error marks it
unhealthy and increments the streak; each of the three outcomes stamps
`last_health_check`. -/
def checkServiceHealth (info : ServiceInfo) (outcome : ProbeOutcome)
    (now : Nat) : ServiceInfo :=
  if info.health_endpoint = "" then info
  else
    match outcome with
    | .response code latency =>
      let info2 :=
        if code = 200 then
          { info with health_status := .healthy, consecutive_failures := 0,
                      response_time_ms := some latency }
        else
          { info with health_status := .degraded,
                      consecutive_failures := info.consecutive_failures + 1 }
      { info2 with last_health_check := some now }
    | .transportError =>
      { info with health_status := .unhealthy,
                  consecutive_failures := info.consecutive_failures + 1,
                  last_health_check := some now }

/-- Well-formed registry: distinct ids, and every stored instance's `id` field
agrees with its key (as `register_service` guarantees). -/
def Registry.WF (r : Registry) : Prop :=
  r.keys.Nodup ∧ ∀ p ∈ r, (p.2).id = p.1

/-- Concrete instance of service "A" with the given id, health state and
latency, used by the discovery and probe examples. -/
def exService (sid : String) (hs : HealthStatus) (lat : Option ℚ) :
    ServiceInfo :=
  { id := sid, name := "A", version := "1", host := "h", port := 80,
    protocol := "http", health_endpoint := "/health", tags := [],
    dependencies := [], metadata := [], registered_at := 0,
    last_health_check := none, health_status := hs,
    consecutive_failures := 0, response_time_ms := lat }

/-- Healthy instance of "A" with recorded latency 0 ms. -/
def exSvc0 : ServiceInfo := exService "i1" .healthy (some 0)

/-- Healthy instance of "A" with recorded latency 5 ms. -/
def exSvc5 : ServiceInfo := exService "i2" .healthy (some 5)

/-- Registry holding the 0 ms and 5 ms healthy instances of "A". -/
def exReg2 : Registry := [("i1", exSvc0), ("i2", exSvc5)]

/-- Registration payload reusing the id "i1" with different data. -/
def exRegData : RegisterData :=
  { id := some "i1", name := "B", version := "2", host := "h2", port := 81,
    protocol := none, health_endpoint := none, tags := none,
    dependencies := none, metadata := none }

/-! ## WebSocket connection manager (app/services/websocket_manager.py)

The manager's mutable state is the socket table `active_connections` (here the
set of ids holding a live socket — the socket objects themselves are opaque),
the `connection_info` table of `ConnectionInfo` records, the two secondary
indexes `user_connections` and `session_connections`, and the stats counters.
Transport effects (socket writes) are decided by a boolean oracle passed in.
-/

/-- One connection's record, from the `ConnectionInfo` pydantic model. -/
structure ConnectionInfo where
  connection_id : String
  client_ip : String
  user_agent : String
  connected_at : Nat
  last_activity : Nat
  message_count : Nat
  user_id : Option String
  session_id : Option String
deriving DecidableEq, Repr

/-- The `WebSocketManager` state: socket table, record table, the two
secondary indexes, and the stats dictionary's counters. -/
structure WSState where
  active_connections : List String
  connection_info : List (String × ConnectionInfo)
  user_connections : List (String × List String)
  session_connections : List (String × List String)
  total_connections : Nat
  current_connections : Nat
  messages_sent : Nat
  messages_received : Nat
  disconnections : Nat
deriving DecidableEq, Repr

/-- State of a freshly constructed `WebSocketManager`. -/
def initialWSState : WSState :=
  { active_connections := [], connection_info := [], user_connections := [],
    session_connections := [], total_connections := 0,
    current_connections := 0, messages_sent := 0, messages_received := 0,
    disconnections := 0 }

/-- Removing one connection id from one secondary index under user or session
key `u`, as the disconnect path does: `discard` the id from the set and delete
the key when the set became empty.  Python only takes this path when the key
is truthy (non-empty string) and present in the index. -/
def dropFromIndex (idx : List (String × List String)) (u : Option String)
    (cid : String) : List (String × List String) :=
  match u with
  | none => idx
  | some u2 =>
    if u2 = "" then idx
    else
      match dictGet idx u2 with
      | none => idx
      | some ids =>
        let ids2 := ids.erase cid
        if ids2 = [] then dictDel u2 idx else dictSet u2 ids2 idx

/-- `WebSocketManager.disconnect`: drop the socket (`del
self.active_connections[connection_id]` when present), and when a
`ConnectionInfo` record exists, clean both indexes under its recorded user and
session ids and delete the record; always count a disconnection and refresh
`current_connections`. -/
def disconnect (w : WSState) (cid : String) : WSState :=
  let active2 :=
    if cid ∈ w.active_connections then w.active_connections.erase cid
    else w.active_connections
  match dictGet w.connection_info cid with
  | none =>
    { w with active_connections := active2,
             disconnections := w.disconnections + 1,
             current_connections := active2.length }
  | some ci =>
    { w with active_connections := active2,
             connection_info := dictDel cid w.connection_info,
             user_connections := dropFromIndex w.user_connections ci.user_id cid,
             session_connections :=
               dropFromIndex w.session_connections ci.session_id cid,
             disconnections := w.disconnections + 1,
             current_connections := active2.length }

/-- The accept path of `WebSocketManager.handle_connection` (before the
receive loop): store the socket, create the `ConnectionInfo` record with no
user or session association, and bump the connection counters. -/
def handleConnection (w : WSState) (cid : String) (ip ua : String)
    (now : Nat) : WSState :=
  let active2 := cid :: w.active_connections
  { w with active_connections := active2,
           connection_info := dictSet cid
             { connection_id := cid, client_ip := ip, user_agent := ua,
               connected_at := now, last_activity := now, message_count := 0,
               user_id := none, session_id := none } w.connection_info,
           total_connections := w.total_connections + 1,
           current_connections := active2.length }

/-- `WebSocketManager.send_message`: an id without a socket returns `False`
at once; otherwise the write either succeeds (`transportOk`, counting a sent
message) or raises, in which case the connection is torn down via
`disconnect` and the method returns `False`. -/
def sendMessage (w : WSState) (cid : String) (transportOk : Bool) :
    Bool × WSState :=
  if cid ∈ w.active_connections then
    if transportOk then
      (true, { w with messages_sent := w.messages_sent + 1 })
    else
      (false, disconnect w cid)
  else (false, w)

/-- The per-message bookkeeping of the receive loop (`_handle_messages`): a
well-formed inbound frame refreshes `last_activity`, bumps the record's
`message_count` when the record exists, and counts a received message. -/
def recordActivity (w : WSState) (cid : String) (now : Nat) : WSState :=
  let w2 :=
    match dictGet w.connection_info cid with
    | none => w
    | some ci =>
      let ci2 := { ci with last_activity := now,
                           message_count := ci.message_count + 1 }
      { w with connection_info := dictSet cid ci2 w.connection_info }
  { w2 with messages_received := w2.messages_received + 1 }

/-- One pass of the idle-sweep loop (`_cleanup_loop`): disconnect every
connection whose record has been inactive for more than 300 seconds. -/
def cleanupSweep (w : WSState) (now : Nat) : WSState :=
  let inactive := (w.connection_info.filter
    (fun p => decide (300 < now - p.2.last_activity))).map Prod.fst
  inactive.foldl disconnect w

/-- States reachable from a fresh manager through its operations.  Connection
ids are uuid4-generated, so an accepted id is assumed fresh (absent from the
record table). -/
inductive WSReachable : WSState → Prop where
  | init : WSReachable initialWSState
  | connect {w cid ip ua now} : WSReachable w →
      dictGet w.connection_info cid = none →
      WSReachable (handleConnection w cid ip ua now)
  | send {w cid ok} : WSReachable w → WSReachable (sendMessage w cid ok).2
  | message {w cid now} : WSReachable w → WSReachable (recordActivity w cid now)
  | close {w cid} : WSReachable w → WSReachable (disconnect w cid)
  | sweep {w now} : WSReachable w → WSReachable (cleanupSweep w now)

/-- A connection id appears in a secondary index. -/
def InIndex (idx : List (String × List String)) (cid : String) : Prop :=
  ∃ p ∈ idx, cid ∈ p.2

/-- The claimed invariant: an id held by either secondary index is present in
the primary table of connection records (and still holds a socket). -/
def ConnInvariant (w : WSState) : Prop :=
  ∀ cid, InIndex w.user_connections cid ∨ InIndex w.session_connections cid →
    (dictGet w.connection_info cid).isSome ∧ cid ∈ w.active_connections

/-- Example manager entry whose breaker is open with no recorded failure
time (used to witness the open-rejection path). -/
def openEntryEx : CBEntry :=
  { mkCBEntry 5 60 with
    breaker := { (mkCBEntry 5 60).breaker with state := .opened } }

/-- First call of the C1 scenario: threshold 3, recovery timeout `T`, lazy
creation, wrapped operation raises `m1` at time `t1`. -/
def cbCall1 (name m1 : String) (t1 T : Nat) : CBEntry × CallResult × Bool :=
  callWithCircuitBreaker none name 3 T (.failure m1) t1

/-- Second consecutive failing call of the C1 scenario. -/
def cbCall2 (name m1 m2 : String) (t1 t2 T : Nat) : CBEntry × CallResult × Bool :=
  callWithCircuitBreaker (some (cbCall1 name m1 t1 T).1) name 3 T (.failure m2) t2

/-- Third consecutive failing call of the C1 scenario. -/
def cbCall3 (name m1 m2 m3 : String) (t1 t2 t3 T : Nat) :
    CBEntry × CallResult × Bool :=
  callWithCircuitBreaker (some (cbCall2 name m1 m2 t1 t2 T).1) name 3 T
    (.failure m3) t3

/-- Fourth call of the C1 scenario (would fail if invoked). -/
def cbCall4 (name m1 m2 m3 m4 : String) (t1 t2 t3 t4 T : Nat) :
    CBEntry × CallResult × Bool :=
  callWithCircuitBreaker (some (cbCall3 name m1 m2 m3 t1 t2 t3 T).1) name 3 T
    (.failure m4) t4

/-- Fifth call of the C1 scenario: the wrapped operation succeeds at `t5`. -/
def cbCall5 (name m1 m2 m3 m4 : String) (t1 t2 t3 t4 t5 T : Nat) :
    CBEntry × CallResult × Bool :=
  callWithCircuitBreaker (some (cbCall4 name m1 m2 m3 m4 t1 t2 t3 t4 T).1)
    name 3 T .success t5

/-- The C1 scenario at concrete times 0, 1, 2 for the three failures, recovery
timeout 60, with the 4th-call and success times left as parameters. -/
def cbScenario (t4 t5 : Nat) : CBEntry × CallResult × Bool :=
  cbCall5 "svc" "boom" "boom" "boom" "boom" 0 1 2 t4 t5 60

/-- Store state after a sequence of fault-free `_sliding_window_check` runs
for client `c` with `max_requests = 5` and `window_seconds = 60` at the given
times. -/
def rlRun (c : String) (s0 : RLStore) (ts : List Int) : RLStore :=
  ts.foldl (fun s t => (slidingWindowCheck noStoreFail s c 5 60 t).2.2) s0

/-! ## Theorems: rate-limiter store -/

/-- Reading an updated key. -/
theorem RLStore.update_same (s : RLStore) (k : String × Int) (v : Int) :
    s.update k v k = some v := by
  simp [RLStore.update]

/-- Reading a key other than the updated one. -/
theorem RLStore.update_other (s : RLStore) (k k2 : String × Int) (v : Int)
    (h : k2 ≠ k) : s.update k v k2 = s k2 := by
  simp [RLStore.update, h]

/-- Closed form of a fault-free `_sliding_window_check` run: deny leaves the
store alone, admit bumps exactly the window key (the first-request `set` to 1
coincides with the increment from 0). -/
theorem slidingWindowCheck_noFail (store : RLStore) (clientId : String)
    (maxRequests winSeconds now : Int) (hw : winSeconds ≠ 0) :
    slidingWindowCheck noStoreFail store clientId maxRequests winSeconds now =
      if maxRequests ≤ (store (windowKey clientId winSeconds now)).getD 0 then
        (false, winSeconds - Int.fmod now winSeconds, store)
      else
        (true, 0, store.update (windowKey clientId winSeconds now)
          ((store (windowKey clientId winSeconds now)).getD 0 + 1)) := by
  unfold slidingWindowCheck
  simp only [noStoreFail, hw, if_false, Bool.false_eq_true, if_neg,
    reduceIte]
  split
  · rfl
  · split
    · rename_i h0
      have : (store.update (windowKey clientId winSeconds now) (0 + 1)).update
          (windowKey clientId winSeconds now) 1 =
          store.update (windowKey clientId winSeconds now) ((store (windowKey clientId winSeconds now)).getD 0 + 1) := by
        funext k2
        by_cases hk : k2 = windowKey clientId winSeconds now <;>
          simp [RLStore.update, hk, h0]
      rw [h0]
      simp only [this, h0]
    · rfl

/-! ## Theorems: circuit breaker -/

/-- C6: for every breaker name and operation: if the breaker is open, the call
raises `CircuitBreakerOpenError(name)` without invoking the operation and
without touching the success and failure counters (only `total_calls` grows),
leaving the breaker object untouched; if the breaker is not open and the
operation raises, the call increments `failure_count`, records
`last_failure_time`, and raises `ExternalServiceError` carrying the dependency
name and the original message; and the two error conditions are distinct
constructors of `CallResult`. -/
theorem callWithCircuitBreaker_error_paths (entry : Option CBEntry)
    (name : String) (defFT defRT : Nat) (outcome : Outcome) (t : Nat) :
    (((entry.getD (mkCBEntry defFT defRT)).breaker.state = .opened ∧
      (entry.getD (mkCBEntry defFT defRT)).breaker.recoveryElapsed t = false) →
      (callWithCircuitBreaker entry name defFT defRT outcome t).2.1 =
        .circuitBreakerOpenError name ∧
      (callWithCircuitBreaker entry name defFT defRT outcome t).2.2 = false ∧
      (callWithCircuitBreaker entry name defFT defRT outcome t).1.stats.total_calls =
        (entry.getD (mkCBEntry defFT defRT)).stats.total_calls + 1 ∧
      (callWithCircuitBreaker entry name defFT defRT outcome t).1.stats.success_count =
        (entry.getD (mkCBEntry defFT defRT)).stats.success_count ∧
      (callWithCircuitBreaker entry name defFT defRT outcome t).1.stats.failure_count =
        (entry.getD (mkCBEntry defFT defRT)).stats.failure_count ∧
      (callWithCircuitBreaker entry name defFT defRT outcome t).1.breaker =
        (entry.getD (mkCBEntry defFT defRT)).breaker) ∧
    (∀ msg, outcome = .failure msg →
      ¬((entry.getD (mkCBEntry defFT defRT)).breaker.state = .opened ∧
        (entry.getD (mkCBEntry defFT defRT)).breaker.recoveryElapsed t = false) →
      (callWithCircuitBreaker entry name defFT defRT outcome t).2.1 =
        .externalServiceError name msg ∧
      (callWithCircuitBreaker entry name defFT defRT outcome t).2.2 = true ∧
      (callWithCircuitBreaker entry name defFT defRT outcome t).1.stats.failure_count =
        (entry.getD (mkCBEntry defFT defRT)).stats.failure_count + 1 ∧
      (callWithCircuitBreaker entry name defFT defRT outcome t).1.stats.last_failure_time =
        some t) ∧
    (∀ s1 s2 m2, CallResult.circuitBreakerOpenError s1 ≠
      CallResult.externalServiceError s2 m2) := by
  set e := entry.getD (mkCBEntry defFT defRT) with he
  refine ⟨?_, ?_, ?_⟩
  · rintro ⟨h1, h2⟩
    simp [callWithCircuitBreaker, ← he, h1, h2]
  · rintro msg rfl h
    rcases hs : e.breaker.state with _ | _ | _ <;>
      rcases hr : e.breaker.recoveryElapsed t with _ | _ <;>
      simp_all [callWithCircuitBreaker, ← he, hs, hr] <;> split <;> rfl
  · intro s1 s2 m2
    exact fun hcontra => CallResult.noConfusion hcontra

/-- C6 witness: a concrete open breaker rejects without invoking, and a
concrete closed breaker wraps a raised error as an external-service error. -/
theorem callWithCircuitBreaker_error_paths_witness :
    (callWithCircuitBreaker (some openEntryEx) "asr" 5 60 .success 10).2.1 =
      .circuitBreakerOpenError "asr" ∧
    (callWithCircuitBreaker none "asr" 5 60 (.failure "timeout") 10).2.1 =
      .externalServiceError "asr" "timeout" := by
  constructor
  · exact ((callWithCircuitBreaker_error_paths (some openEntryEx) "asr" 5 60
      .success 10).1 (by constructor <;> rfl)).1
  · exact (((callWithCircuitBreaker_error_paths none "asr" 5 60
      (.failure "timeout") 10).2.1 "timeout" rfl (by simp [mkCBEntry])).1)

/-- C1 counterexample: with `failure_threshold = 3` and recovery timeout 60,
three failures (at times 0, 1, 2) open the breaker, the 4th call (time 3) is
rejected, and a success at time 62 closes it again — but the recorded
`CircuitBreakerStats.failure_count` is then 3, not 0: the close listener
(`_on_circuit_breaker_close`) only updates `state` and `last_success_time`
and nothing in the success path resets the stats counter. -/
theorem recovery_leaves_recorded_failure_count :
    (cbScenario 3 62).1.stats.state = .closed ∧
    (cbScenario 3 62).1.stats.failure_count = 3 ∧
    (cbScenario 3 62).1.stats.failure_count ≠ 0 := by
  refine ⟨rfl, rfl, by decide⟩

/-- Value of the first failing call of the C1 scenario. -/
theorem cbCall1_eq (name m1 : String) (t1 T : Nat) :
    cbCall1 name m1 t1 T =
      ({ breaker := { state := .closed, failureCount := 1,
                      lastFailure := some t1, failureThreshold := 3,
                      recoveryTimeout := T },
         stats := { state := .closed, failure_count := 1, success_count := 0,
                    total_calls := 1, last_failure_time := some t1,
                    last_success_time := none, failure_threshold := 3,
                    recovery_timeout := T } },
       .externalServiceError name m1, true) := by
  simp [cbCall1, callWithCircuitBreaker, mkCBEntry]

/-- Value of the second failing call of the C1 scenario. -/
theorem cbCall2_eq (name m1 m2 : String) (t1 t2 T : Nat) :
    cbCall2 name m1 m2 t1 t2 T =
      ({ breaker := { state := .closed, failureCount := 2,
                      lastFailure := some t2, failureThreshold := 3,
                      recoveryTimeout := T },
         stats := { state := .closed, failure_count := 2, success_count := 0,
                    total_calls := 2, last_failure_time := some t2,
                    last_success_time := none, failure_threshold := 3,
                    recovery_timeout := T } },
       .externalServiceError name m2, true) := by
  rw [cbCall2, cbCall1_eq]
  simp [callWithCircuitBreaker, Breaker.recoveryElapsed]

/-- Value of the third failing call of the C1 scenario: the breaker opens and
the open listener records the transition in the stats. -/
theorem cbCall3_eq (name m1 m2 m3 : String) (t1 t2 t3 T : Nat) :
    cbCall3 name m1 m2 m3 t1 t2 t3 T =
      ({ breaker := { state := .opened, failureCount := 3,
                      lastFailure := some t3, failureThreshold := 3,
                      recoveryTimeout := T },
         stats := { state := .opened, failure_count := 3, success_count := 0,
                    total_calls := 3, last_failure_time := some t3,
                    last_success_time := none, failure_threshold := 3,
                    recovery_timeout := T } },
       .externalServiceError name m3, true) := by
  rw [cbCall3, cbCall2_eq]
  simp [callWithCircuitBreaker, Breaker.recoveryElapsed]

/-- Value of the fourth call of the C1 scenario while the recovery timeout has
not yet elapsed: rejected without invoking the operation; only `total_calls`
moves. -/
theorem cbCall4_eq (name m1 m2 m3 m4 : String) (t1 t2 t3 t4 T : Nat)
    (h4 : t4 < t3 + T) :
    cbCall4 name m1 m2 m3 m4 t1 t2 t3 t4 T =
      ({ breaker := { state := .opened, failureCount := 3,
                      lastFailure := some t3, failureThreshold := 3,
                      recoveryTimeout := T },
         stats := { state := .opened, failure_count := 3, success_count := 0,
                    total_calls := 4, last_failure_time := some t3,
                    last_success_time := none, failure_threshold := 3,
                    recovery_timeout := T } },
       .circuitBreakerOpenError name, false) := by
  have e4 : (decide (t3 + T ≤ t4)) = false := decide_eq_false (by omega)
  rw [cbCall4, cbCall3_eq]
  simp [callWithCircuitBreaker, Breaker.recoveryElapsed, e4]

/-- Value of the succeeding trial call of the C1 scenario after the recovery
timeout: the breaker closes with internal failure count 0, the close listener
records the state, and the stats `failure_count` stays at 3. -/
theorem cbCall5_eq (name m1 m2 m3 m4 : String) (t1 t2 t3 t4 t5 T : Nat)
    (h4 : t4 < t3 + T) (h5 : t3 + T ≤ t5) :
    cbCall5 name m1 m2 m3 m4 t1 t2 t3 t4 t5 T =
      ({ breaker := { state := .closed, failureCount := 0,
                      lastFailure := some t3, failureThreshold := 3,
                      recoveryTimeout := T },
         stats := { state := .closed, failure_count := 3, success_count := 1,
                    total_calls := 5, last_failure_time := some t3,
                    last_success_time := some t5, failure_threshold := 3,
                    recovery_timeout := T } },
       .ok, true) := by
  have e5 : (decide (t3 + T ≤ t5)) = true := decide_eq_true h5
  rw [cbCall5, cbCall4_eq name m1 m2 m3 m4 t1 t2 t3 t4 T h4]
  simp [callWithCircuitBreaker, Breaker.recoveryElapsed, e5]

/-- C1 amended: for a lazily created breaker with `failure_threshold = 3` and
recovery timeout `T`, after 3 consecutive failing calls (times `t1 ≤ t2 ≤ t3`
arbitrary) the breaker and its stats record are `open`; a 4th call before
`t3 + T` is rejected as `CircuitBreakerOpenError` without invoking the wrapped
operation; and a succeeding call at `t5 ≥ t3 + T` leaves state `closed` with
the breaker object's internal failure count 0 — while the manager's recorded
`failure_count` remains 3 (it is reset only by an explicit
`reset_circuit_breaker`). -/
theorem breaker_threshold_recovery (name : String) (m1 m2 m3 m4 : String)
    (t1 t2 t3 t4 t5 T : Nat) (h4 : t4 < t3 + T) (h5 : t3 + T ≤ t5) :
    ((cbCall3 name m1 m2 m3 t1 t2 t3 T).1.stats.state = .opened ∧
     (cbCall3 name m1 m2 m3 t1 t2 t3 T).1.breaker.state = .opened) ∧
    ((cbCall4 name m1 m2 m3 m4 t1 t2 t3 t4 T).2.1 =
       .circuitBreakerOpenError name ∧
     (cbCall4 name m1 m2 m3 m4 t1 t2 t3 t4 T).2.2 = false) ∧
    ((cbCall5 name m1 m2 m3 m4 t1 t2 t3 t4 t5 T).1.stats.state = .closed ∧
     (cbCall5 name m1 m2 m3 m4 t1 t2 t3 t4 t5 T).1.breaker.state = .closed ∧
     (cbCall5 name m1 m2 m3 m4 t1 t2 t3 t4 t5 T).1.breaker.failureCount = 0 ∧
     (cbCall5 name m1 m2 m3 m4 t1 t2 t3 t4 t5 T).1.stats.failure_count = 3) := by
  have h3 := cbCall3_eq name m1 m2 m3 t1 t2 t3 T
  have h4e := cbCall4_eq name m1 m2 m3 m4 t1 t2 t3 t4 T h4
  have h5e := cbCall5_eq name m1 m2 m3 m4 t1 t2 t3 t4 t5 T h4 h5
  rw [h3, h4e, h5e]
  exact ⟨⟨rfl, rfl⟩, ⟨rfl, rfl⟩, rfl, rfl, rfl, rfl⟩

/-- C1 witness: the amended scenario at concrete times 0, 1, 2, 3, 62 with
recovery timeout 60. -/
theorem breaker_threshold_recovery_witness :
    3 < 2 + 60 ∧ 2 + 60 ≤ 62 ∧
    ((cbCall5 "svc" "a" "b" "c" "d" 0 1 2 3 62 60).1.stats.state = .closed ∧
     (cbCall5 "svc" "a" "b" "c" "d" 0 1 2 3 62 60).1.breaker.failureCount = 0 ∧
     (cbCall5 "svc" "a" "b" "c" "d" 0 1 2 3 62 60).1.stats.failure_count = 3) :=
  ⟨by omega, by omega,
   ((breaker_threshold_recovery "svc" "a" "b" "c" "d" 0 1 2 3 62 60
      (by omega) (by omega)).2.2).1,
   ((breaker_threshold_recovery "svc" "a" "b" "c" "d" 0 1 2 3 62 60
      (by omega) (by omega)).2.2).2.2.1,
   ((breaker_threshold_recovery "svc" "a" "b" "c" "d" 0 1 2 3 62 60
      (by omega) (by omega)).2.2).2.2.2⟩

/-! ## Theorems: rate limiter claims -/

/-- C2: with `max_requests = 5` and `window_seconds = 60` and no prior count
stored for the relevant windows, the first five checks (times `t1 … t5` in one
window) are admitted, each leaving the stored counter at 1 … 5; the sixth
check in the same window is denied with
`retry_after = 60 - (t6 mod 60) > 0` and an unchanged store; and a check in a
later window (`t7`) is admitted again. -/
theorem rate_limit_five_then_deny (c : String) (store0 : RLStore)
    (t1 t2 t3 t4 t5 t6 t7 : Int)
    (k2 : windowKey c 60 t2 = windowKey c 60 t1)
    (k3 : windowKey c 60 t3 = windowKey c 60 t1)
    (k4 : windowKey c 60 t4 = windowKey c 60 t1)
    (k5 : windowKey c 60 t5 = windowKey c 60 t1)
    (k6 : windowKey c 60 t6 = windowKey c 60 t1)
    (h0 : store0 (windowKey c 60 t1) = none)
    (k7 : windowKey c 60 t7 ≠ windowKey c 60 t1)
    (h07 : store0 (windowKey c 60 t7) = none) :
    (slidingWindowCheck noStoreFail store0 c 5 60 t1).1 = true ∧
    rlRun c store0 [t1] (windowKey c 60 t1) = some 1 ∧
    (slidingWindowCheck noStoreFail (rlRun c store0 [t1]) c 5 60 t2).1 = true ∧
    rlRun c store0 [t1, t2] (windowKey c 60 t1) = some 2 ∧
    (slidingWindowCheck noStoreFail (rlRun c store0 [t1, t2]) c 5 60 t3).1 = true ∧
    rlRun c store0 [t1, t2, t3] (windowKey c 60 t1) = some 3 ∧
    (slidingWindowCheck noStoreFail (rlRun c store0 [t1, t2, t3]) c 5 60 t4).1 = true ∧
    rlRun c store0 [t1, t2, t3, t4] (windowKey c 60 t1) = some 4 ∧
    (slidingWindowCheck noStoreFail (rlRun c store0 [t1, t2, t3, t4]) c 5 60 t5).1 = true ∧
    rlRun c store0 [t1, t2, t3, t4, t5] (windowKey c 60 t1) = some 5 ∧
    ((slidingWindowCheck noStoreFail (rlRun c store0 [t1, t2, t3, t4, t5]) c 5 60 t6).1 = false ∧
     (slidingWindowCheck noStoreFail (rlRun c store0 [t1, t2, t3, t4, t5]) c 5 60 t6).2.1 =
       60 - Int.fmod t6 60 ∧
     0 < (slidingWindowCheck noStoreFail (rlRun c store0 [t1, t2, t3, t4, t5]) c 5 60 t6).2.1 ∧
     (slidingWindowCheck noStoreFail (rlRun c store0 [t1, t2, t3, t4, t5]) c 5 60 t6).2.2 =
       rlRun c store0 [t1, t2, t3, t4, t5]) ∧
    (slidingWindowCheck noStoreFail (rlRun c store0 [t1, t2, t3, t4, t5, t6]) c 5 60 t7).1 = true := by
  have hw : (60 : Int) ≠ 0 := by norm_num
  set k := windowKey c 60 t1 with hk
  set s1 := RLStore.update store0 k 1 with hs1d
  set s2 := RLStore.update s1 k 2 with hs2d
  set s3 := RLStore.update s2 k 3 with hs3d
  set s4 := RLStore.update s3 k 4 with hs4d
  set s5 := RLStore.update s4 k 5 with hs5d
  have e1 : slidingWindowCheck noStoreFail store0 c 5 60 t1 = (true, 0, s1) := by
    rw [slidingWindowCheck_noFail store0 c 5 60 t1 hw, ← hk, h0]
    norm_num [hs1d]
  have e2 : slidingWindowCheck noStoreFail s1 c 5 60 t2 = (true, 0, s2) := by
    rw [slidingWindowCheck_noFail s1 c 5 60 t2 hw, k2,
      hs1d, RLStore.update_same]
    norm_num [hs2d, ← hs1d]
  have e3 : slidingWindowCheck noStoreFail s2 c 5 60 t3 = (true, 0, s3) := by
    rw [slidingWindowCheck_noFail s2 c 5 60 t3 hw, k3,
      hs2d, RLStore.update_same]
    norm_num [hs3d, ← hs2d]
  have e4 : slidingWindowCheck noStoreFail s3 c 5 60 t4 = (true, 0, s4) := by
    rw [slidingWindowCheck_noFail s3 c 5 60 t4 hw, k4,
      hs3d, RLStore.update_same]
    norm_num [hs4d, ← hs3d]
  have e5 : slidingWindowCheck noStoreFail s4 c 5 60 t5 = (true, 0, s5) := by
    rw [slidingWindowCheck_noFail s4 c 5 60 t5 hw, k5,
      hs4d, RLStore.update_same]
    norm_num [hs5d, ← hs4d]
  have e6 : slidingWindowCheck noStoreFail s5 c 5 60 t6 =
      (false, 60 - Int.fmod t6 60, s5) := by
    rw [slidingWindowCheck_noFail s5 c 5 60 t6 hw, k6,
      hs5d, RLStore.update_same]
    norm_num
  have r1 : rlRun c store0 [t1] = s1 := by simp [rlRun, e1]
  have r2 : rlRun c store0 [t1, t2] = s2 := by simp [rlRun, e1, e2]
  have r3 : rlRun c store0 [t1, t2, t3] = s3 := by simp [rlRun, e1, e2, e3]
  have r4 : rlRun c store0 [t1, t2, t3, t4] = s4 := by
    simp [rlRun, e1, e2, e3, e4]
  have r5 : rlRun c store0 [t1, t2, t3, t4, t5] = s5 := by
    simp [rlRun, e1, e2, e3, e4, e5]
  have r6 : rlRun c store0 [t1, t2, t3, t4, t5, t6] = s5 := by
    simp [rlRun, e1, e2, e3, e4, e5, e6]
  have hretry : 0 < 60 - Int.fmod t6 60 := by
    rw [Int.fmod_eq_emod t6 (by norm_num : (0:Int) ≤ 60)]
    have := Int.emod_lt_of_pos t6 (by norm_num : (0:Int) < 60)
    omega
  have s5none : s5 (windowKey c 60 t7) = none := by
    simp [hs5d, hs4d, hs3d, hs2d, hs1d, RLStore.update, k7, h07]
  have e7 : (slidingWindowCheck noStoreFail s5 c 5 60 t7).1 = true := by
    rw [slidingWindowCheck_noFail s5 c 5 60 t7 hw, s5none]
    norm_num
  refine ⟨by rw [e1], by rw [r1, hs1d]; exact RLStore.update_same _ _ _,
    by rw [r1, e2], by rw [r2, hs2d]; exact RLStore.update_same _ _ _,
    by rw [r2, e3], by rw [r3, hs3d]; exact RLStore.update_same _ _ _,
    by rw [r3, e4], by rw [r4, hs4d]; exact RLStore.update_same _ _ _,
    by rw [r4, e5], by rw [r5, hs5d]; exact RLStore.update_same _ _ _,
    ⟨by rw [r5, e6], by rw [r5, e6], by rw [r5, e6]; exact hretry,
     by rw [r5, e6]⟩,
    by rw [r6]; exact e7⟩

/-- C2 witness: client "client" against an empty store at times 0 … 5 within
the first window and a 7th check at time 60 in the next window. -/
theorem rate_limit_five_then_deny_witness :
    (slidingWindowCheck noStoreFail (fun _ => none) "client" 5 60 0).1 = true ∧
    rlRun "client" (fun _ => none) [0, 1, 2, 3, 4] (windowKey "client" 60 0) = some 5 ∧
    (slidingWindowCheck noStoreFail (rlRun "client" (fun _ => none) [0, 1, 2, 3, 4])
      "client" 5 60 5).1 = false ∧
    0 < (slidingWindowCheck noStoreFail (rlRun "client" (fun _ => none) [0, 1, 2, 3, 4])
      "client" 5 60 5).2.1 ∧
    (slidingWindowCheck noStoreFail (rlRun "client" (fun _ => none) [0, 1, 2, 3, 4, 5])
      "client" 5 60 60).1 = true := by
  have H := rate_limit_five_then_deny "client" (fun _ => none) 0 1 2 3 4 5 60
    (by decide) (by decide) (by decide) (by decide) (by decide) rfl
    (by decide) rfl
  exact ⟨H.1, H.2.2.2.2.2.2.2.2.2.1, H.2.2.2.2.2.2.2.2.2.2.1.1,
    H.2.2.2.2.2.2.2.2.2.2.1.2.2.1, H.2.2.2.2.2.2.2.2.2.2.2⟩

/-- C5: whenever a store operation that the check actually performs raises —
the read, the increment (reached when the counter is below the limit), or the
first-request set (reached when the read counter was 0 and the limit is
positive) — `_sliding_window_check` admits the request instead of denying or
propagating. -/
theorem rate_limit_fails_open (store : RLStore) (c : String) (m w now : Int)
    (fi fs : Bool) :
    (slidingWindowCheck { failGet := true, failIncrement := fi, failSet := fs }
      store c m w now).1 = true ∧
    (¬ m ≤ (store (windowKey c w now)).getD 0 →
      (slidingWindowCheck { failGet := false, failIncrement := true, failSet := fs }
        store c m w now).1 = true) ∧
    ((store (windowKey c w now)).getD 0 = 0 → 0 < m →
      (slidingWindowCheck { failGet := false, failIncrement := false, failSet := true }
        store c m w now).1 = true) := by
  refine ⟨?_, ?_, ?_⟩
  · by_cases hw : w = 0 <;> simp [slidingWindowCheck, hw]
  · intro h
    by_cases hw : w = 0 <;> simp [slidingWindowCheck, hw, h]
  · intro h0 hm
    by_cases hw : w = 0
    · simp [slidingWindowCheck, hw]
    · simp only [slidingWindowCheck, hw, if_false, reduceIte, h0]
      rw [if_neg (by omega : ¬ m ≤ (0 : Int))]
      simp

/-- C5 witness: against an empty store with limit 5 per 60 seconds at time 0,
each of the three failure points admits. -/
theorem rate_limit_fails_open_witness :
    (slidingWindowCheck { failGet := true, failIncrement := false, failSet := false }
      (fun _ => none) "c" 5 60 0).1 = true ∧
    (slidingWindowCheck { failGet := false, failIncrement := true, failSet := false }
      (fun _ => none) "c" 5 60 0).1 = true ∧
    (slidingWindowCheck { failGet := false, failIncrement := false, failSet := true }
      (fun _ => none) "c" 5 60 0).1 = true :=
  ⟨(rate_limit_fails_open (fun _ => none) "c" 5 60 0 false false).1,
   (rate_limit_fails_open (fun _ => none) "c" 5 60 0 true false).2.1 (by decide),
   (rate_limit_fails_open (fun _ => none) "c" 5 60 0 false true).2.2 rfl
     (by norm_num)⟩

/-- C8 counterexample: at time 120 with a 60-second window the key the code
builds uses window index 1 (`(120 - 60) // 60`), not
`floor(120 / 60) = 2` as the claim states. -/
theorem window_key_counterexample :
    windowKey "client" 60 120 = ("client", 1) ∧ (120 : Int).fdiv 60 = 2 ∧
    windowKey "client" 60 120 ≠ ("client", (120 : Int).fdiv 60) := by
  refine ⟨by decide, by decide, by decide⟩

/-- C8 amended: for a positive window length the key consulted and incremented
is built from the client identity and the window index
`floor(now / window_seconds) - 1` (the code floor-divides
`window_start = now - window_seconds` by the window length), and a fault-free
check touches no other key. -/
theorem window_key_off_by_one (c : String) (w now : Int) (hw : 0 < w)
    (store : RLStore) (m : Int) :
    windowKey c w now = (c, now.fdiv w - 1) ∧
    (∀ k2, k2 ≠ windowKey c w now →
      (slidingWindowCheck noStoreFail store c m w now).2.2 k2 = store k2) := by
  constructor
  · unfold windowKey
    rw [Int.fdiv_eq_ediv _ hw.le, Int.fdiv_eq_ediv _ hw.le]
    have h := Int.add_mul_ediv_right now (-1) (by omega : w ≠ 0)
    refine Prod.ext rfl ?_
    simpa [sub_eq_add_neg] using h
  · intro k2 hk
    rw [slidingWindowCheck_noFail store c m w now (by omega)]
    split
    · rfl
    · exact RLStore.update_other _ _ _ _ hk

/-- C8 amended witness: concrete key at time 120, window 60, and an untouched
foreign key. -/
theorem window_key_off_by_one_witness :
    windowKey "client" 60 120 = ("client", (120 : Int).fdiv 60 - 1) ∧
    (slidingWindowCheck noStoreFail (fun _ => none) "client" 5 60 120).2.2
      ("other", 1) = none :=
  ⟨(window_key_off_by_one "client" 60 120 (by norm_num) (fun _ => none) 5).1,
   (window_key_off_by_one "client" 60 120 (by norm_num) (fun _ => none) 5).2
     ("other", 1) (by decide)⟩

/-! ## Theorems: service discovery -/

/-- C4: for an instance with a non-empty probe path, one probe cycle stamps
the last-probe time in every outcome; HTTP 200 gives status healthy, zero
consecutive failures and a recorded latency; any other status gives degraded
and increments the failure streak; a transport error or timeout gives
unhealthy and increments the streak; and the streak is 0 after the cycle
exactly when the probe succeeded. -/
theorem probe_cycle_outcomes (info : ServiceInfo) (outcome : ProbeOutcome)
    (now : Nat) (h : info.health_endpoint ≠ "") :
    (checkServiceHealth info outcome now).last_health_check = some now ∧
    (∀ lat, outcome = .response 200 lat →
      (checkServiceHealth info outcome now).health_status = .healthy ∧
      (checkServiceHealth info outcome now).consecutive_failures = 0 ∧
      (checkServiceHealth info outcome now).response_time_ms = some lat) ∧
    (∀ code lat, outcome = .response code lat → code ≠ 200 →
      (checkServiceHealth info outcome now).health_status = .degraded ∧
      (checkServiceHealth info outcome now).consecutive_failures =
        info.consecutive_failures + 1) ∧
    (outcome = .transportError →
      (checkServiceHealth info outcome now).health_status = .unhealthy ∧
      (checkServiceHealth info outcome now).consecutive_failures =
        info.consecutive_failures + 1) ∧
    ((checkServiceHealth info outcome now).consecutive_failures = 0 ↔
      ∃ lat, outcome = .response 200 lat) := by
  cases outcome with
  | response code lat =>
    by_cases hc : code = 200 <;> simp [checkServiceHealth, h, hc]
  | transportError => simp [checkServiceHealth, h]

/-- C4 witness: a fresh instance probed with HTTP 200 at latency 7 ms and,
separately, with a transport error. -/
theorem probe_cycle_outcomes_witness :
    ((checkServiceHealth (exService "i0" .unknown none) (.response 200 7) 5).health_status = .healthy ∧
     (checkServiceHealth (exService "i0" .unknown none) (.response 200 7) 5).consecutive_failures = 0 ∧
     (checkServiceHealth (exService "i0" .unknown none) (.response 200 7) 5).response_time_ms = some 7) ∧
    (checkServiceHealth (exService "i0" .unknown none) (.response 200 7) 5).last_health_check = some 5 ∧
    ((checkServiceHealth (exService "i0" .unknown none) .transportError 5).health_status = .unhealthy ∧
     (checkServiceHealth (exService "i0" .unknown none) .transportError 5).consecutive_failures =
       (exService "i0" .unknown none).consecutive_failures + 1) :=
  ⟨(probe_cycle_outcomes (exService "i0" .unknown none) (.response 200 7) 5
      (by decide)).2.1 7 rfl,
   (probe_cycle_outcomes (exService "i0" .unknown none) (.response 200 7) 5
      (by decide)).1,
   (probe_cycle_outcomes (exService "i0" .unknown none) .transportError 5
      (by decide)).2.2.2.1 rfl⟩

/-- The scan of `minByLatency` returns its accumulator or a list element. -/
theorem foldl_min_mem (tl : List ServiceInfo) :
    ∀ b, tl.foldl (fun best s => if latencyKey s < latencyKey best then s else best) b = b ∨
      tl.foldl (fun best s => if latencyKey s < latencyKey best then s else best) b ∈ tl := by
  induction tl with
  | nil => intro b; left; rfl
  | cons a l ih =>
    intro b
    rw [List.foldl_cons]
    rcases ih (if latencyKey a < latencyKey b then a else b) with h | h
    · rw [h]
      split
      · right; exact List.mem_cons_self a l
      · left; rfl
    · right; exact List.mem_cons_of_mem a h

/-- The scan of `minByLatency` attains a latency key no larger than the
accumulator's and every list element's. -/
theorem foldl_min_le (tl : List ServiceInfo) :
    ∀ b, latencyKey (tl.foldl (fun best s => if latencyKey s < latencyKey best then s else best) b) ≤
        latencyKey b ∧
      ∀ x ∈ tl, latencyKey (tl.foldl (fun best s => if latencyKey s < latencyKey best then s else best) b) ≤
        latencyKey x := by
  induction tl with
  | nil => intro b; exact ⟨le_refl _, by simp⟩
  | cons a l ih =>
    intro b
    rw [List.foldl_cons]
    obtain ⟨h1, h2⟩ := ih (if latencyKey a < latencyKey b then a else b)
    have hb : latencyKey (if latencyKey a < latencyKey b then a else b) ≤ latencyKey b := by
      split
      · rename_i hlt; exact le_of_lt hlt
      · exact le_refl _
    have ha : latencyKey (if latencyKey a < latencyKey b then a else b) ≤ latencyKey a := by
      split
      · exact le_refl _
      · rename_i hlt; exact le_of_not_lt hlt
    refine ⟨le_trans h1 hb, ?_⟩
    intro x hx
    rcases List.mem_cons.mp hx with rfl | hx2
    · exact le_trans h1 ha
    · exact h2 x hx2

/-- Every healthy matching instance is a matching instance. -/
theorem healthyMatching_subset (r : Registry) (name : String)
    (tags : List String) :
    ∀ s ∈ healthyMatching r name tags, s ∈ matchingServices r name tags ∧
      s.health_status = .healthy := by
  intro s hs
  obtain ⟨h1, h2⟩ := List.mem_filter.mp hs
  exact ⟨h1, by simpa using h2⟩

/-- Python's `min` result is an element of the scanned list. -/
theorem minByLatency_mem (hd : ServiceInfo) (tl : List ServiceInfo) :
    minByLatency hd tl ∈ hd :: tl := by
  unfold minByLatency
  rcases foldl_min_mem tl hd with h | h
  · rw [h]; exact List.mem_cons_self _ _
  · exact List.mem_cons_of_mem _ h

/-- Python's `min` result has a minimal key among the scanned elements. -/
theorem minByLatency_le (hd : ServiceInfo) (tl : List ServiceInfo) :
    ∀ x ∈ hd :: tl, latencyKey (minByLatency hd tl) ≤ latencyKey x := by
  unfold minByLatency
  intro x hx
  obtain ⟨h1, h2⟩ := foldl_min_le tl hd
  rcases List.mem_cons.mp hx with rfl | h
  · exact h1
  · exact h2 x h

/-- C3 amended: discovery returns nothing exactly when no instance matches
the name and tag filter; when a healthy matching instance exists it returns a
healthy matching instance of minimal latency key — where a missing latency,
or a recorded latency of exactly 0 (falsy in Python), counts as infinite —
and when only unhealthy instances match it still returns a matching
instance. -/
theorem discover_selection (r : Registry) (name : String) (tags : List String) :
    (discoverService r name tags = none ↔ matchingServices r name tags = []) ∧
    (healthyMatching r name tags ≠ [] →
      ∃ s, discoverService r name tags = some s ∧
        s ∈ healthyMatching r name tags ∧ s.health_status = .healthy ∧
        ∀ t2 ∈ healthyMatching r name tags, latencyKey s ≤ latencyKey t2) ∧
    (matchingServices r name tags ≠ [] →
      ∃ s, discoverService r name tags = some s ∧
        s ∈ matchingServices r name tags) := by
  refine ⟨?_, ?_, ?_⟩
  · cases hh : healthyMatching r name tags with
    | cons hd tl =>
      cases hm : matchingServices r name tags with
      | nil =>
        have := (healthyMatching_subset r name tags hd
          (by rw [hh]; exact List.mem_cons_self _ _)).1
        rw [hm] at this
        exact absurd this (by simp)
      | cons s rest => simp [discoverService, hh, hm]
    | nil =>
      cases hm : matchingServices r name tags with
      | nil => simp [discoverService, hh, hm]
      | cons s rest => simp [discoverService, hh, hm]
  · intro hne
    cases hh : healthyMatching r name tags with
    | nil => exact absurd hh hne
    | cons hd tl =>
      refine ⟨minByLatency hd tl, by simp [discoverService, hh], ?_, ?_, ?_⟩
      · exact minByLatency_mem hd tl
      · exact (healthyMatching_subset r name tags _
          (by rw [hh]; exact minByLatency_mem hd tl)).2
      · exact minByLatency_le hd tl
  · intro hne
    cases hh : healthyMatching r name tags with
    | cons hd tl =>
      refine ⟨minByLatency hd tl, by simp [discoverService, hh], ?_⟩
      exact (healthyMatching_subset r name tags _
        (by rw [hh]; exact minByLatency_mem hd tl)).1
    | nil =>
      cases hm : matchingServices r name tags with
      | nil => exact absurd hm hne
      | cons s rest =>
        exact ⟨s, by simp [discoverService, hh, hm], List.mem_cons_self _ _⟩

/-- C3 counterexample: two healthy instances of "A", one with recorded
latency 0 ms and one with 5 ms.  The claim says discovery returns the healthy
instance with the lowest recorded latency (0 ms), but
`response_time_ms or float('inf')` treats the recorded 0.0 as missing, so the
code returns the 5 ms instance. -/
theorem discover_zero_latency_counterexample :
    discoverService exReg2 "A" [] = some exSvc5 ∧
    exSvc0 ∈ healthyMatching exReg2 "A" [] ∧
    exSvc0.response_time_ms = some 0 ∧ exSvc5.response_time_ms = some 5 ∧
    ¬ ((5 : ℚ) ≤ 0) := by
  refine ⟨by decide, by decide, by decide, by decide, by norm_num⟩

/-- C3 amended witness: on the concrete two-instance registry the selection
theorem yields an instance that is healthy, matching, and of minimal latency
key. -/
theorem discover_selection_witness :
    healthyMatching exReg2 "A" [] ≠ [] ∧
    (∃ s, discoverService exReg2 "A" [] = some s ∧
      s ∈ healthyMatching exReg2 "A" [] ∧ s.health_status = .healthy ∧
      ∀ t2 ∈ healthyMatching exReg2 "A" [], latencyKey s ≤ latencyKey t2) :=
  ⟨by decide, (discover_selection exReg2 "A" []).2.1 (by decide)⟩

/-- Replacing an existing key leaves a dict's size unchanged. -/
theorem dictSet_length_of_mem {α : Type} (k : String) (v : α)
    (l : List (String × α)) (h : k ∈ l.map Prod.fst) :
    (dictSet k v l).length = l.length := by
  induction l with
  | nil => simp at h
  | cons p rest ih =>
    obtain ⟨k2, v2⟩ := p
    by_cases hk : k2 = k
    · simp [dictSet, hk]
    · have h2 : k ∈ rest.map Prod.fst := by
        rcases List.mem_map.mp h with ⟨q, hq, hq2⟩
        rcases List.mem_cons.mp hq with rfl | hq3
        · exact absurd hq2 hk
        · exact List.mem_map.mpr ⟨q, hq3, hq2⟩
      simp [dictSet, hk, ih h2]

/-- Reading the key just written. -/
theorem dictGet_dictSet_self {α : Type} (k : String) (v : α)
    (l : List (String × α)) : dictGet (dictSet k v l) k = some v := by
  induction l with
  | nil => simp [dictSet, dictGet]
  | cons p rest ih =>
    obtain ⟨k2, v2⟩ := p
    by_cases hk : k2 = k
    · simp [dictSet, dictGet, hk]
    · simp [dictSet, dictGet, hk, ih]

/-- Entries of a dict after a write with distinct keys: the written pair, or
an old pair under a different key. -/
theorem mem_dictSet {α : Type} (k : String) (v : α) (l : List (String × α))
    (hnodup : (l.map Prod.fst).Nodup) (p : String × α)
    (hp : p ∈ dictSet k v l) : p = (k, v) ∨ (p ∈ l ∧ p.1 ≠ k) := by
  induction l with
  | nil =>
    simp [dictSet] at hp
    left; exact hp
  | cons q rest ih =>
    obtain ⟨k2, v2⟩ := q
    rw [List.map_cons, List.nodup_cons] at hnodup
    by_cases hk : k2 = k
    · subst hk
      simp only [dictSet, if_pos rfl] at hp
      rcases List.mem_cons.mp hp with rfl | hp2
      · left; rfl
      · right
        refine ⟨List.mem_cons_of_mem _ hp2, ?_⟩
        intro habs
        exact hnodup.1 (List.mem_map.mpr ⟨p, hp2, habs⟩)
    · simp only [dictSet, if_neg hk] at hp
      rcases List.mem_cons.mp hp with rfl | hp2
      · right
        exact ⟨List.mem_cons_self _ _, hk⟩
      · rcases ih hnodup.2 hp2 with h | ⟨h1, h2⟩
        · left; exact h
        · right; exact ⟨List.mem_cons_of_mem _ h1, h2⟩

/-- C10: registering a descriptor that reuses an id already in the registry
replaces the stored instance: the registration returns that id, the instance
count is unchanged, `get(id)` returns the newly built instance, and the
previously stored (different) instance no longer appears among the registry's
values. -/
theorem register_existing_id_replaces (r : Registry) (d : RegisterData)
    (freshId : String) (now : Nat) (i : String) (old : ServiceInfo)
    (hwf : Registry.WF r) (hid : d.id = some i) (hold : (i, old) ∈ r)
    (hne : old ≠ mkServiceInfo d i now) :
    (registerService r d freshId now).2 = i ∧
    (registerService r d freshId now).1.length = r.length ∧
    dictGet (registerService r d freshId now).1 i =
      some (mkServiceInfo d i now) ∧
    old ∉ (registerService r d freshId now).1.values := by
  have hsid : d.id.getD freshId = i := by rw [hid]; rfl
  have hkey : i ∈ r.map Prod.fst := List.mem_map.mpr ⟨(i, old), hold, rfl⟩
  refine ⟨by simp [registerService, hsid], ?_, ?_, ?_⟩
  · simp only [registerService, hsid]
    exact dictSet_length_of_mem i (mkServiceInfo d i now) r hkey
  · simp only [registerService, hsid]
    exact dictGet_dictSet_self i (mkServiceInfo d i now) r
  · simp only [registerService, hsid]
    intro habs
    rcases List.mem_map.mp habs with ⟨p, hp, hp2⟩
    rcases mem_dictSet i (mkServiceInfo d i now) r hwf.1 p hp with h | ⟨h1, h2⟩
    · rw [h] at hp2
      exact hne hp2.symm
    · have hpid : p.2.id = p.1 := hwf.2 p h1
      have holdid : old.id = i := hwf.2 (i, old) hold
      rw [hp2] at hpid
      rw [hpid] at holdid
      exact h2 holdid

/-- C10 witness: re-registering id "i1" with new data over a one-entry
registry keeps the size at 1, `get` returns the new instance, and the old one
is gone from the listing. -/
theorem register_existing_id_replaces_witness :
    (registerService [("i1", exSvc0)] exRegData "fresh" 7).2 = "i1" ∧
    (registerService [("i1", exSvc0)] exRegData "fresh" 7).1.length = 1 ∧
    dictGet (registerService [("i1", exSvc0)] exRegData "fresh" 7).1 "i1" =
      some (mkServiceInfo exRegData "i1" 7) ∧
    exSvc0 ∉ (registerService [("i1", exSvc0)] exRegData "fresh" 7).1.values :=
  register_existing_id_replaces [("i1", exSvc0)] exRegData "fresh" 7 "i1"
    exSvc0 (by constructor <;> decide) rfl (by decide) (by decide)

/-! ## Theorems: WebSocket connection manager -/

/-- C9: sending to a connection id that is absent from the socket table
returns `False` and leaves the whole manager state — record table, indexes
and stats included — untouched. -/
theorem send_unknown_returns_false (w : WSState) (cid : String) (ok : Bool)
    (h : cid ∉ w.active_connections) :
    sendMessage w cid ok = (false, w) := by
  simp [sendMessage, h]

/-- C9 witness: sending on a fresh manager with no connections. -/
theorem send_unknown_returns_false_witness :
    sendMessage initialWSState "c1" true = (false, initialWSState) :=
  send_unknown_returns_false initialWSState "c1" true (by simp [initialWSState])

/-- Dropping from an empty index leaves it empty. -/
theorem dropFromIndex_empty (u : Option String) (cid : String) :
    dropFromIndex [] u cid = [] := by
  cases u with
  | none => rfl
  | some u2 => by_cases h : u2 = "" <;> simp [dropFromIndex, h, dictGet]

/-- The disconnect path cannot populate empty secondary indexes. -/
theorem disconnect_empty_indexes (w : WSState) (cid : String)
    (hu : w.user_connections = []) (hs : w.session_connections = []) :
    (disconnect w cid).user_connections = [] ∧
    (disconnect w cid).session_connections = [] := by
  unfold disconnect
  cases dictGet w.connection_info cid with
  | none => exact ⟨hu, hs⟩
  | some ci => simp [hu, hs, dropFromIndex_empty]

/-- Iterated disconnects cannot populate empty secondary indexes. -/
theorem foldl_disconnect_empty (l : List String) :
    ∀ w : WSState, w.user_connections = [] → w.session_connections = [] →
      (l.foldl disconnect w).user_connections = [] ∧
      (l.foldl disconnect w).session_connections = [] := by
  induction l with
  | nil => intro w hu hs; exact ⟨hu, hs⟩
  | cons a l2 ih =>
    intro w hu hs
    obtain ⟨h1, h2⟩ := disconnect_empty_indexes w a hu hs
    exact ih (disconnect w a) h1 h2

/-- In this code base nothing ever inserts into `user_connections` or
`session_connections` (the accept path records no user or session id), so
both indexes stay empty in every reachable state. -/
theorem reachable_indexes_empty (w : WSState) (h : WSReachable w) :
    w.user_connections = [] ∧ w.session_connections = [] := by
  induction h with
  | init => exact ⟨rfl, rfl⟩
  | connect hr hf ih => simpa [handleConnection] using ih
  | send hr ih =>
    rename_i w2 cid ok
    rcases ih with ⟨h1, h2⟩
    by_cases hc : cid ∈ w2.active_connections
    · by_cases hok : ok = true
      · simp [sendMessage, hc, hok, h1, h2]
      · have hd := disconnect_empty_indexes w2 cid h1 h2
        simpa [sendMessage, hc, hok] using hd
    · simp [sendMessage, hc, h1, h2]
  | message hr ih =>
    rename_i w2 cid now
    rcases ih with ⟨h1, h2⟩
    unfold recordActivity
    cases dictGet w2.connection_info cid <;> simp [h1, h2]
  | close hr ih =>
    rename_i w2 cid
    exact disconnect_empty_indexes w2 cid ih.1 ih.2
  | sweep hr ih =>
    rename_i w2 now
    exact foldl_disconnect_empty _ w2 ih.1 ih.2

/-- C7: in every state reachable through accept, send, message handling,
disconnect and the idle sweep, a connection id held by either secondary index
is present in the primary connection table.  (In this code base the property
holds because nothing ever populates the indexes: `handle_connection` stores
no user or session association, so the indexes remain empty and only shrink
in `disconnect`.) -/
theorem connection_index_invariant (w : WSState) (h : WSReachable w) :
    ConnInvariant w := by
  obtain ⟨h1, h2⟩ := reachable_indexes_empty w h
  intro cid hcid
  rcases hcid with hI | hI <;> obtain ⟨p, hp, hcp⟩ := hI
  · rw [h1] at hp
    exact absurd hp (by simp)
  · rw [h2] at hp
    exact absurd hp (by simp)

/-- C7 witness: the invariant in the concrete reachable state after one
accepted connection. -/
theorem connection_index_invariant_witness :
    ConnInvariant (handleConnection initialWSState "c1" "ip" "ua" 0) :=
  connection_index_invariant _ (WSReachable.connect WSReachable.init rfl)

end Ellie
